import Mathlib

/-!
Shallow embedding of the DID chaincode (`did-contract.go`, version 1.2x):
the DID record data model, the signature-validation placeholder, the
organization attribution rule, and the Create/Update/Recover/Get/List
operations, modelled as pure functions over an explicit ledger state.

Strings are Lean `String`s; Go byte slices are `List Nat` (each entry a
byte value < 256); Go `int` is Lean `Int`; timestamps are opaque `Int`
values delivered by the platform per transaction.
-/

namespace DIDChain

/-- `startsWithL s pat`: `pat` is a leading segment of `s`. -/
def startsWithL : List Char → List Char → Bool
  | _, [] => true
  | [], _ => false
  | c :: cs, p :: ps => c == p && startsWithL cs ps

/-- `containsL pat s`: `pat` occurs somewhere in `s` as a contiguous run. -/
def containsL (pat : List Char) : List Char → Bool
  | [] => pat.isEmpty
  | c :: rest => startsWithL (c :: rest) pat || containsL pat rest

/-- Go `strings.Contains s pat`: `pat` occurs in `s` as a contiguous
substring (true when `pat` is empty). -/
def strContains (s pat : String) : Bool :=
  containsL pat.data s.data

/-! ## SHA-256 (as used by `validateSignature` via `crypto/sha256`)

Executable SHA-256 over byte lists, words kept as `Nat` reduced mod `2^32`. -/

def w32 : Nat := 4294967296

/-- Right-rotate a 32-bit word (value < 2^32) by `n` places. -/
def rotr (n x : Nat) : Nat := (x / 2 ^ n + x % 2 ^ n * 2 ^ (32 - n)) % w32

def shr (n x : Nat) : Nat := x / 2 ^ n

def smallSigma0 (x : Nat) : Nat := (rotr 7 x) ^^^ (rotr 18 x) ^^^ (shr 3 x)

def smallSigma1 (x : Nat) : Nat := (rotr 17 x) ^^^ (rotr 19 x) ^^^ (shr 10 x)

def bigSigma0 (x : Nat) : Nat := (rotr 2 x) ^^^ (rotr 13 x) ^^^ (rotr 22 x)

def bigSigma1 (x : Nat) : Nat := (rotr 6 x) ^^^ (rotr 11 x) ^^^ (rotr 25 x)

/-- The 64 SHA-256 round constants. -/
def roundK : List Nat :=
  [1116352408, 1899447441, 3049323471, 3921009573, 961987163, 1508970993,
   2453635748, 2870763221, 3624381080, 310598401, 607225278, 1426881987,
   1925078388, 2162078206, 2614888103, 3248222580, 3835390401, 4022224774,
   264347078, 604807628, 770255983, 1249150122, 1555081692, 1996064986,
   2554220882, 2821834349, 2952996808, 3210313671, 3336571891, 3584528711,
   113926993, 338241895, 666307205, 773529912, 1294757372, 1396182291,
   1695183700, 1986661051, 2177026350, 2456956037, 2730485921, 2820302411,
   3259730800, 3345764771, 3516065817, 3600352804, 4094571909, 275423344,
   430227734, 506948616, 659060556, 883997877, 958139571, 1322822218,
   1537002063, 1747873779, 1955562222, 2024104815, 2227730452, 2361852424,
   2428436474, 2756734187, 3204031479, 3329325298]

/-- SHA-256 initial hash state. -/
def initH : List Nat :=
  [1779033703, 3144134277, 1013904242, 2773480762,
   1359893119, 2600822924, 528734635, 1541459225]

/-- `n` bytes of `v`, most significant first. -/
def toBytesBE : Nat → Nat → List Nat
  | 0, _ => []
  | k + 1, v => toBytesBE k (v / 256) ++ [v % 256]

/-- Pack consecutive 4-byte groups into big-endian 32-bit words. -/
def bytesToWords : List Nat → List Nat
  | b0 :: b1 :: b2 :: b3 :: rest =>
      (b0 * 16777216 + b1 * 65536 + b2 * 256 + b3) :: bytesToWords rest
  | _ => []

/-- SHA-256 padding: append 0x80, zeros to 56 mod 64, then the 64-bit
big-endian bit length. -/
def padMessage (msg : List Nat) : List Nat :=
  let len := msg.length
  msg ++ [128] ++ List.replicate ((119 - len % 64) % 64) 0 ++ toBytesBE 8 (len * 8)

/-- Extend the 16-word schedule by `fuel` further words. -/
def extendW : Nat → List Nat → List Nat
  | 0, w => w
  | fuel + 1, w =>
      let i := w.length
      let nw := (smallSigma1 (w.getD (i - 2) 0) + w.getD (i - 7) 0 +
                 smallSigma0 (w.getD (i - 15) 0) + w.getD (i - 16) 0) % w32
      extendW fuel (w ++ [nw])

/-- One SHA-256 compression round on the 8-word state. -/
def round (hs : List Nat) (k w : Nat) : List Nat :=
  let a := hs.getD 0 0
  let b := hs.getD 1 0
  let c := hs.getD 2 0
  let d := hs.getD 3 0
  let e := hs.getD 4 0
  let f := hs.getD 5 0
  let g := hs.getD 6 0
  let h := hs.getD 7 0
  let ch := (e &&& f) ^^^ ((e ^^^ 4294967295) &&& g)
  let maj := (a &&& b) ^^^ (a &&& c) ^^^ (b &&& c)
  let t1 := (h + bigSigma1 e + ch + k + w) % w32
  let t2 := (bigSigma0 a + maj) % w32
  [(t1 + t2) % w32, a, b, c, (d + t1) % w32, e, f, g]

/-- Run the 64 compression rounds over the zipped (constant, schedule) list. -/
def rounds : List (Nat × Nat) → List Nat → List Nat
  | [], hs => hs
  | (k, w) :: rest, hs => rounds rest (round hs k w)

/-- Compress one 64-byte block into the running hash state. -/
def processBlock (hs : List Nat) (block : List Nat) : List Nat :=
  let ws := extendW 48 (bytesToWords block)
  let out := rounds (roundK.zip ws) hs
  (hs.zip out).map (fun p => (p.1 + p.2) % w32)

/-- Fold `n` consecutive 64-byte blocks of `msg` into the state. -/
def processBlocks : Nat → List Nat → List Nat → List Nat
  | 0, hs, _ => hs
  | n + 1, hs, msg => processBlocks n (processBlock hs (msg.take 64)) (msg.drop 64)

/-- SHA-256 digest (32 bytes) of a byte list. -/
def sha256Bytes (msg : List Nat) : List Nat :=
  let padded := padMessage msg
  ((processBlocks (padded.length / 64) initH padded).map (toBytesBE 4)).flatten

/-- Lower-case hex digit for a value < 16. -/
def hexDigit (n : Nat) : Char :=
  if n < 10 then Char.ofNat (48 + n) else Char.ofNat (87 + n)

/-- Go `hex.EncodeToString`: lower-case hex encoding of a byte list. -/
def hexEncode (bytes : List Nat) : String :=
  String.mk ((bytes.map (fun b => [hexDigit (b / 16), hexDigit (b % 16)])).flatten)

/-- UTF-8 encoding of one character, as byte values. -/
def utf8Bytes (c : Char) : List Nat :=
  let n := c.toNat
  if n < 128 then [n]
  else if n < 2048 then [192 + n / 64, 128 + n % 64]
  else if n < 65536 then [224 + n / 4096, 128 + n / 64 % 64, 128 + n % 64]
  else [240 + n / 262144, 128 + n / 4096 % 64, 128 + n / 64 % 64, 128 + n % 64]

/-- Go `[]byte(s)`: the UTF-8 bytes of a string. -/
def strBytes (s : String) : List Nat := (s.data.map utf8Bytes).flatten

/-- First `n` characters of a string (Go slicing `s[:n]` on ASCII data). -/
def strTake (s : String) (n : Nat) : String := String.mk (s.data.take n)

/-! ## Signature validation (`validateSignature`, did-contract.go lines 44-57) -/

/-- `validateSignature message signature publicKey` (did-contract.go 44-57):
reject when `signature` or `publicKey` is empty; otherwise accept iff
`signature` contains the first 16 hex characters of
`hex(sha256(message ++ publicKey))` as a substring. -/
def validateSignature (message signature publicKey : String) : Bool :=
  if signature = "" || publicKey = "" then false
  else
    let expectedSig := hexEncode (sha256Bytes (strBytes (message ++ publicKey)))
    strContains signature (strTake expectedSig 16)

/-! ## Data model (`DIDDocument`, did-contract.go lines 28-41) -/

/-- The persisted DID record (struct `DIDDocument`). Timestamps are the
opaque per-transaction values delivered by the platform, modelled as `Int`. -/
structure DIDDocument where
  DID : String
  LongFormDID : String
  Document : String
  CreatedAt : Int
  UpdatedAt : Int
  Version : Int
  Recovered : Bool
  RecoveredAt : Int
  UpdateKey : String
  RecoveryKey : String
  CreatedBy : String
  EndorsedBy : List String
deriving DecidableEq, Repr

/-- A stored ledger value, modelled by its JSON-decode outcome: `good d`
stands for bytes that `json.Unmarshal` decodes to the record `d` (as the
bytes written by `json.Marshal` of `d` do), `corrupt` for bytes on which
decoding fails. -/
inductive Blob where
  | good (d : DIDDocument)
  | corrupt (tag : Nat)
deriving DecidableEq, Repr

/-- `json.Unmarshal` of a stored value. -/
def Blob.decode : Blob → Option DIDDocument
  | .good d => some d
  | .corrupt _ => none

/-- The ledger world state: key/value pairs in ledger order. -/
abbrev Store := List (String × Blob)

/-- Platform point read (`stub.GetState`): the value under `k`, if any. -/
def getState : Store → String → Option Blob
  | [], _ => none
  | (k2, v) :: rest, k => if k2 = k then some v else getState rest k

/-- Replace the value under `k`, or append a fresh entry. -/
def putStateList : Store → String → Blob → Store
  | [], k, v => [(k, v)]
  | (k2, v2) :: rest, k, v =>
      if k2 = k then (k, v) :: rest else (k2, v2) :: putStateList rest k v

/-- Modelled from the spec: the platform point write (`stub.PutState`) is
not part of src/; per the spec error kind `InvalidArgument` (empty key),
a write with an empty key fails and leaves the ledger unchanged, any
other write succeeds. -/
def putState (st : Store) (k : String) (v : Blob) : Option Store :=
  if k = "" then none else some (putStateList st k v)

/-- Outcome of one chaincode operation (`shim.Success` with the resulting
record / `shim.Error` with a message). -/
inductive Response where
  | ok (d : DIDDocument)
  | err (msg : String)
deriving DecidableEq, Repr

/-- Whether a response is a success. -/
def Response.isOk : Response → Bool
  | .ok _ => true
  | .err _ => false

/-! ## Organization attribution (did-contract.go lines 138-144, 219-224,
302-307: the same inline block in each of the three mutating operations) -/

/-- CompanyA identity marker. -/
def markerA : String := "m-FQEEX22AZNEGDDJL4WCQP6KYHU"

/-- CompanyB identity marker. -/
def markerB : String := "m-JLGL2ZEX6BDIXIEFYD4RJVZSTI"

/-- Attribution block inlined in `createDID` (lines 139-144). -/
def createdByOf (creator : String) : String :=
  if strContains creator markerA then "CompanyA"
  else if strContains creator markerB then "CompanyB"
  else "unknown"

/-- Attribution block inlined in `updateDID` (lines 219-224). -/
def updatedByOf (creator : String) : String :=
  if strContains creator markerA then "CompanyA"
  else if strContains creator markerB then "CompanyB"
  else "unknown"

/-- Attribution block inlined in `recoverDID` (lines 302-307). -/
def recoveredByOf (creator : String) : String :=
  if strContains creator markerA then "CompanyA"
  else if strContains creator markerB then "CompanyB"
  else "unknown"

/-! ## Operations (did-contract.go lines 98-388)

Each operation takes the ledger state, the deterministic transaction
timestamp (`stub.GetTxTimestamp`), the caller identity bytes
(`stub.GetCreator`, a string since the source only applies
`strings.Contains` to `string(creator)`), and the argument list, and
returns the new ledger state with the response. Platform read/identity/
timestamp transport failures are not modelled (the abstract ledger is
assumed reliable, per spec section 1). -/

/-- `createDID` (lines 98-171). -/
def createDID (st : Store) (txTime : Int) (creator : String) (args : List String) :
    Store × Response :=
  if args.length < 3 || args.length > 5 then
    (st, .err "Incorrect number of arguments. Expecting 3-5: did, longFormDid, documentJSON, [updateKey], [recoveryKey]")
  else
    let did := args.getD 0 ""
    let longFormDid := args.getD 1 ""
    let documentJSON := args.getD 2 ""
    let updateKey := if args.length ≥ 4 then args.getD 3 "" else ""
    let recoveryKey := if args.length ≥ 5 then args.getD 4 "" else ""
    match getState st did with
    | some _ => (st, .err (s!"DID {did} already exists"))
    | none =>
      let createdBy := createdByOf creator
      let didDocument : DIDDocument :=
        { DID := did, LongFormDID := longFormDid, Document := documentJSON,
          CreatedAt := txTime, UpdatedAt := txTime, Version := 1,
          Recovered := false, RecoveredAt := 0,
          UpdateKey := updateKey, RecoveryKey := recoveryKey,
          CreatedBy := createdBy, EndorsedBy := [createdBy] }
      match putState st did (.good didDocument) with
      | some st2 => (st2, .ok didDocument)
      | none => (st, .err "key must not be an empty string")

/-- The update authorization message
`fmt.Sprintf("%s:%s:%d", did, updatedDocumentJSON, existingDID.Version+1)`
(line 207). -/
def mkUpdateMessage (did doc : String) (nextVersion : Int) : String :=
  did ++ ":" ++ doc ++ ":" ++ toString nextVersion

/-- The recovery authorization message
`fmt.Sprintf("%s:recovery:%s:%d", did, newDocumentJSON, existingDID.Version+1)`
(line 290). -/
def mkRecoveryMessage (did doc : String) (nextVersion : Int) : String :=
  did ++ ":recovery:" ++ doc ++ ":" ++ toString nextVersion

/-- Append `org` to the endorsement list when absent (the found-loop of
lines 232-241 / 317-326). -/
def addEndorsement (orgs : List String) (org : String) : List String :=
  if org ∈ orgs then orgs else orgs ++ [org]

/-- `updateDID` (lines 174-254). -/
def updateDID (st : Store) (txTime : Int) (creator : String) (args : List String) :
    Store × Response :=
  if args.length ≠ 3 then
    (st, .err "Incorrect number of arguments. Expecting 3: did, updatedDocumentJSON, operationSignature")
  else
    let did := args.getD 0 ""
    let updatedDocumentJSON := args.getD 1 ""
    let operationSignature := args.getD 2 ""
    match getState st did with
    | none => (st, .err (s!"DID {did} does not exist"))
    | some blob =>
      match blob.decode with
      | none => (st, .err "unmarshal failure")
      | some existingDID =>
        if existingDID.UpdateKey ≠ "" ∧
            validateSignature (mkUpdateMessage did updatedDocumentJSON (existingDID.Version + 1))
              operationSignature existingDID.UpdateKey = false then
          (st, .err "Invalid operation signature for update")
        else
          let updatedBy := updatedByOf creator
          let newDoc : DIDDocument :=
            { existingDID with
              Document := updatedDocumentJSON, UpdatedAt := txTime,
              Version := existingDID.Version + 1,
              EndorsedBy := addEndorsement existingDID.EndorsedBy updatedBy }
          match putState st did (.good newDoc) with
          | some st2 => (st2, .ok newDoc)
          | none => (st, .err "key must not be an empty string")

/-- `recoverDID` (lines 257-339). -/
def recoverDID (st : Store) (txTime : Int) (creator : String) (args : List String) :
    Store × Response :=
  if args.length ≠ 3 then
    (st, .err "Incorrect number of arguments. Expecting 3: did, newDocumentJSON, recoverySignature")
  else
    let did := args.getD 0 ""
    let newDocumentJSON := args.getD 1 ""
    let recoverySignature := args.getD 2 ""
    match getState st did with
    | none => (st, .err (s!"DID {did} does not exist"))
    | some blob =>
      match blob.decode with
      | none => (st, .err "unmarshal failure")
      | some existingDID =>
        if existingDID.RecoveryKey ≠ "" ∧
            validateSignature (mkRecoveryMessage did newDocumentJSON (existingDID.Version + 1))
              recoverySignature existingDID.RecoveryKey = false then
          (st, .err "Invalid recovery signature")
        else
          let recoveredBy := recoveredByOf creator
          let newDoc : DIDDocument :=
            { existingDID with
              Document := newDocumentJSON, UpdatedAt := txTime,
              Version := existingDID.Version + 1,
              Recovered := true, RecoveredAt := txTime,
              EndorsedBy := addEndorsement existingDID.EndorsedBy recoveredBy }
          match putState st did (.good newDoc) with
          | some st2 => (st2, .ok newDoc)
          | none => (st, .err "key must not be an empty string")

/-- `getDID` (lines 342-357): read-only, returns the stored record. -/
def getDID (st : Store) (args : List String) : Response :=
  if args.length ≠ 1 then
    .err "Incorrect number of arguments. Expecting 1: did"
  else
    let did := args.getD 0 ""
    match getState st did with
    | none => .err (s!"DID {did} does not exist")
    | some blob =>
      match blob.decode with
      | none => .err "unmarshal failure"
      | some d => .ok d

/-- Outcome of `listDIDs`. -/
inductive ListResponse where
  | ok (ds : List DIDDocument)
  | err (msg : String)
deriving DecidableEq, Repr

/-- `listDIDs` (lines 360-388): full-range scan, decode each stored value,
abort on the first decode failure, otherwise return all records. -/
def listDIDs : Store → ListResponse
  | [] => .ok []
  | (_, b) :: rest =>
    match b.decode with
    | none => .err "unmarshal failure"
    | some d =>
      match listDIDs rest with
      | .ok ds => .ok (d :: ds)
      | .err m => .err m

/-! ## Mutation traces

A mutation is one `UpdateDID` or `RecoverDID` invocation aimed at a fixed
`did`, with its own document, proof, transaction time and caller identity. -/

/-- One mutating invocation on a fixed DID. -/
inductive MutOp where
  | upd (doc sig : String) (txTime : Int) (creator : String)
  | recov (doc sig : String) (txTime : Int) (creator : String)
deriving DecidableEq, Repr

/-- The organization label the ledger would attribute to the op's caller. -/
def mutOrg : MutOp → String
  | .upd _ _ _ c => updatedByOf c
  | .recov _ _ _ c => recoveredByOf c

/-- Apply one mutation to the store; the flag records success. -/
def applyMut (did : String) (st : Store) : MutOp → Store × Bool
  | .upd doc sig t c =>
      let p := updateDID st t c [did, doc, sig]
      (p.1, p.2.isOk)
  | .recov doc sig t c =>
      let p := recoverDID st t c [did, doc, sig]
      (p.1, p.2.isOk)

/-- Run a sequence of mutations, collecting the attributed organization of
each successful one, in order. -/
def runMuts (did : String) (st : Store) : List MutOp → Store × List String
  | [] => (st, [])
  | op :: rest =>
      let p := applyMut did st op
      let q := runMuts did p.1 rest
      (q.1, (if p.2 then [mutOrg op] else []) ++ q.2)

end DIDChain

/-! ## Sanity checks of the embedding on known values -/

set_option maxRecDepth 100000 in
example : DIDChain.hexEncode (DIDChain.sha256Bytes (DIDChain.strBytes "abc")) =
    "ba7816bf8f01cfea414140de5dae2223b00361a396177a9cb410ff61f20015ad" := by decide

example : DIDChain.strContains "hello world" "lo wo" = true := by decide

example : DIDChain.strContains "hello world" "low" = false := by decide

namespace DIDChain

/-! ## Ledger store lemmas -/

theorem getState_putStateList_self (st : Store) (k : String) (v : Blob) :
    getState (putStateList st k v) k = some v := by
  induction st with
  | nil => simp [putStateList, getState]
  | cons p rest ih =>
    obtain ⟨k2, v2⟩ := p
    by_cases h : k2 = k
    · simp [putStateList, h, getState]
    · simp [putStateList, h, getState, ih]

/-! ## Endorsement-list lemmas -/

theorem addEndorsement_exists_tail (l : List String) (o : String) :
    ∃ tail, addEndorsement l o = l ++ tail := by
  by_cases h : o ∈ l
  · exact ⟨[], by simp [addEndorsement, h]⟩
  · exact ⟨[o], by simp [addEndorsement, h]⟩

theorem mem_addEndorsement_self (l : List String) (o : String) :
    o ∈ addEndorsement l o := by
  by_cases h : o ∈ l
  · simp [addEndorsement, h]
  · simp [addEndorsement, h]

theorem mem_addEndorsement_of_mem (l : List String) (o x : String) (hx : x ∈ l) :
    x ∈ addEndorsement l o := by
  obtain ⟨tail, htail⟩ := addEndorsement_exists_tail l o
  rw [htail]
  exact List.mem_append_left _ hx

theorem addEndorsement_nodup (l : List String) (o : String) (h : l.Nodup) :
    (addEndorsement l o).Nodup := by
  by_cases hm : o ∈ l
  · simpa [addEndorsement, hm] using h
  · simp [addEndorsement, hm, List.nodup_append, h, hm]

/-! ## Operation effect lemmas -/

/-- Successful `createDID` stores and returns a fresh version-1 record. -/
theorem createDID_ok (st : Store) (t : Int) (c : String) (args : List String)
    (st' : Store) (d : DIDDocument)
    (h : createDID st t c args = (st', Response.ok d)) :
    d.DID = args.getD 0 "" ∧ d.LongFormDID = args.getD 1 "" ∧
    d.Document = args.getD 2 "" ∧ d.CreatedAt = t ∧ d.UpdatedAt = t ∧
    d.Version = 1 ∧ d.Recovered = false ∧
    d.CreatedBy = createdByOf c ∧ d.EndorsedBy = [createdByOf c] ∧
    args.getD 0 "" ≠ "" ∧ st' = putStateList st (args.getD 0 "") (Blob.good d) ∧
    getState st' (args.getD 0 "") = some (Blob.good d) := by
  simp only [createDID] at h
  split at h
  · simp at h
  · split at h
    · simp at h
    · split at h
      case _ st2 heq =>
        rw [putState] at heq
        split at heq
        · exact absurd heq (by simp)
        case _ hne =>
          obtain ⟨hst, hd⟩ := Prod.mk.injEq .. ▸ h
          obtain rfl := (Response.ok.injEq .. ▸ hd)
          injection heq with heq2
          subst heq2 hst
          refine ⟨rfl, rfl, rfl, rfl, rfl, rfl, rfl, rfl, rfl, hne, rfl, ?_⟩
          exact getState_putStateList_self ..
      · simp at h

/-- Successful `updateDID` stores and returns the incremented record. -/
theorem updateDID_ok (st : Store) (t : Int) (c : String) (did doc sig : String)
    (st' : Store) (d : DIDDocument) (r : DIDDocument)
    (hget : getState st did = some (Blob.good r))
    (h : updateDID st t c [did, doc, sig] = (st', Response.ok d)) :
    d = { r with
          Document := doc
          UpdatedAt := t
          Version := r.Version + 1
          EndorsedBy := addEndorsement r.EndorsedBy (updatedByOf c) } ∧
    did ≠ "" ∧ st' = putStateList st did (Blob.good d) ∧
    getState st' did = some (Blob.good d) := by
  simp only [updateDID, List.length_cons, List.length_nil, List.getD] at h
  norm_num at h
  rw [hget] at h
  simp only [Blob.decode] at h
  split at h
  · simp at h
  · split at h
    case _ st2 heq =>
      rw [putState] at heq
      split at heq
      · exact absurd heq (by simp)
      case _ hne =>
        obtain ⟨hst, hd⟩ := Prod.mk.injEq .. ▸ h
        obtain rfl := (Response.ok.injEq .. ▸ hd)
        injection heq with heq2
        subst heq2 hst
        exact ⟨rfl, hne, rfl, getState_putStateList_self ..⟩
    · simp at h

/-- Successful `recoverDID` stores and returns the incremented, recovered
record. -/
theorem recoverDID_ok (st : Store) (t : Int) (c : String) (did doc sig : String)
    (st' : Store) (d : DIDDocument) (r : DIDDocument)
    (hget : getState st did = some (Blob.good r))
    (h : recoverDID st t c [did, doc, sig] = (st', Response.ok d)) :
    d = { r with
          Document := doc
          UpdatedAt := t
          Version := r.Version + 1
          Recovered := true
          RecoveredAt := t
          EndorsedBy := addEndorsement r.EndorsedBy (recoveredByOf c) } ∧
    did ≠ "" ∧ st' = putStateList st did (Blob.good d) ∧
    getState st' did = some (Blob.good d) := by
  simp only [recoverDID, List.length_cons, List.length_nil, List.getD] at h
  norm_num at h
  rw [hget] at h
  simp only [Blob.decode] at h
  split at h
  · simp at h
  · split at h
    case _ st2 heq =>
      rw [putState] at heq
      split at heq
      · exact absurd heq (by simp)
      case _ hne =>
        obtain ⟨hst, hd⟩ := Prod.mk.injEq .. ▸ h
        obtain rfl := (Response.ok.injEq .. ▸ hd)
        injection heq with heq2
        subst heq2 hst
        exact ⟨rfl, hne, rfl, getState_putStateList_self ..⟩
    · simp at h

/-- A failing `updateDID` never writes: the store comes back unchanged. -/
theorem updateDID_fail (st : Store) (t : Int) (c : String) (args : List String)
    (st' : Store) (re : Response)
    (h : updateDID st t c args = (st', re)) (hre : re.isOk = false) :
    st' = st := by
  simp only [updateDID] at h
  split at h
  · exact (Prod.mk.injEq .. ▸ h).1.symm
  · split at h
    · exact (Prod.mk.injEq .. ▸ h).1.symm
    · split at h
      · exact (Prod.mk.injEq .. ▸ h).1.symm
      · split at h
        · exact (Prod.mk.injEq .. ▸ h).1.symm
        · split at h
          · obtain ⟨h1, h2⟩ := Prod.mk.injEq .. ▸ h
            rw [← h2] at hre
            simp [Response.isOk] at hre
          · exact (Prod.mk.injEq .. ▸ h).1.symm

/-- A failing `recoverDID` never writes: the store comes back unchanged. -/
theorem recoverDID_fail (st : Store) (t : Int) (c : String) (args : List String)
    (st' : Store) (re : Response)
    (h : recoverDID st t c args = (st', re)) (hre : re.isOk = false) :
    st' = st := by
  simp only [recoverDID] at h
  split at h
  · exact (Prod.mk.injEq .. ▸ h).1.symm
  · split at h
    · exact (Prod.mk.injEq .. ▸ h).1.symm
    · split at h
      · exact (Prod.mk.injEq .. ▸ h).1.symm
      · split at h
        · exact (Prod.mk.injEq .. ▸ h).1.symm
        · split at h
          · obtain ⟨h1, h2⟩ := Prod.mk.injEq .. ▸ h
            rw [← h2] at hre
            simp [Response.isOk] at hre
          · exact (Prod.mk.injEq .. ▸ h).1.symm

/-- One mutation step on a store holding a good record at `did`: either it
fails and leaves the store untouched, or it succeeds and the stored record
is the old one with version bumped by one, the endorsement list extended by
the caller's organization when absent, and the recovered flag never
lowered. -/
theorem applyMut_step (did : String) (st : Store) (op : MutOp) (r : DIDDocument)
    (hget : getState st did = some (Blob.good r)) :
    ((applyMut did st op).2 = false ∧ (applyMut did st op).1 = st) ∨
    ((applyMut did st op).2 = true ∧ ∃ r',
      getState (applyMut did st op).1 did = some (Blob.good r') ∧
      r'.Version = r.Version + 1 ∧
      r'.EndorsedBy = addEndorsement r.EndorsedBy (mutOrg op) ∧
      (r.Recovered = true → r'.Recovered = true)) := by
  cases op with
  | upd doc sig t c =>
    rcases hre : updateDID st t c [did, doc, sig] with ⟨st1, re⟩
    simp only [applyMut, hre]
    cases re with
    | err m =>
      exact Or.inl ⟨rfl, updateDID_fail st t c [did, doc, sig] st1 (.err m) hre rfl⟩
    | ok d =>
      obtain ⟨hd, hne, hst, hg⟩ := updateDID_ok st t c did doc sig st1 d r hget hre
      subst hd
      exact Or.inr ⟨rfl, _, hg, rfl, rfl, fun hr => hr⟩
  | recov doc sig t c =>
    rcases hre : recoverDID st t c [did, doc, sig] with ⟨st1, re⟩
    simp only [applyMut, hre]
    cases re with
    | err m =>
      exact Or.inl ⟨rfl, recoverDID_fail st t c [did, doc, sig] st1 (.err m) hre rfl⟩
    | ok d =>
      obtain ⟨hd, hne, hst, hg⟩ := recoverDID_ok st t c did doc sig st1 d r hget hre
      subst hd
      exact Or.inr ⟨rfl, _, hg, rfl, rfl, fun _ => rfl⟩

/-- Trace invariant: running any sequence of mutations from a store holding
a good record at `did` keeps a good record there whose version grew by
exactly the number of successful mutations, whose recovered flag was never
lowered, whose endorsement list extends the original one on the right,
stays duplicate-free, and contains the organization of every successful
mutation. -/
theorem runMuts_invariant (did : String) (ops : List MutOp) :
    ∀ (st : Store) (r : DIDDocument), getState st did = some (Blob.good r) →
    ∃ r', getState (runMuts did st ops).1 did = some (Blob.good r') ∧
      r'.Version = r.Version + (runMuts did st ops).2.length ∧
      (r.Recovered = true → r'.Recovered = true) ∧
      (∃ tail, r'.EndorsedBy = r.EndorsedBy ++ tail) ∧
      (r.EndorsedBy.Nodup → r'.EndorsedBy.Nodup) ∧
      (∀ o ∈ (runMuts did st ops).2, o ∈ r'.EndorsedBy) := by
  induction ops with
  | nil =>
    intro st r hget
    exact ⟨r, by simpa [runMuts] using hget, by simp [runMuts],
           fun hr => hr, ⟨[], by simp⟩, fun hn => hn, by simp [runMuts]⟩
  | cons op rest ih =>
    intro st r hget
    simp only [runMuts]
    rcases applyMut_step did st op r hget with ⟨hfail, hst⟩ | ⟨hok, r1, hget1, hv1, he1, hr1⟩
    · rw [hfail, hst]
      simp only [Bool.false_eq_true, if_false, List.nil_append]
      exact ih st r hget
    · rw [hok]
      simp only [if_true, List.cons_append, List.nil_append]
      obtain ⟨r', h1, h2, h3, h4, h5, h6⟩ := ih (applyMut did st op).1 r1 hget1
      refine ⟨r', h1, ?_, fun hr => h3 (hr1 hr), ?_, ?_, ?_⟩
      · rw [h2, hv1]
        simp only [List.length_cons]
        push_cast
        ring
      · obtain ⟨t1, ht1⟩ := addEndorsement_exists_tail r.EndorsedBy (mutOrg op)
        obtain ⟨t2, ht2⟩ := h4
        exact ⟨t1 ++ t2, by rw [ht2, he1, ht1, List.append_assoc]⟩
      · intro hn
        exact h5 (he1 ▸ addEndorsement_nodup _ _ hn)
      · intro o ho
        rcases List.mem_cons.1 ho with rfl | ho2
        · obtain ⟨t2, ht2⟩ := h4
          rw [ht2]
          exact List.mem_append_left _ (he1 ▸ mem_addEndorsement_self r.EndorsedBy (mutOrg op))
        · exact h6 o ho2

/-! ## Claims -/

/-- C1: when `CreateDID` succeeds the stored record has version 1, and
after any sequence of `UpdateDID`/`RecoverDID` invocations aimed at that
record its version equals 1 plus the number of successful mutations — each
accepted mutation adds exactly 1, and the version never decreases or skips
a value. -/
theorem claim1_version_counter (st0 : Store) (t : Int) (c : String)
    (args : List String) (st1 : Store) (d : DIDDocument)
    (h : createDID st0 t c args = (st1, Response.ok d)) (ops : List MutOp) :
    d.Version = 1 ∧
    ∃ r', getState (runMuts (args.getD 0 "") st1 ops).1 (args.getD 0 "") =
        some (Blob.good r') ∧
      r'.Version = 1 + (runMuts (args.getD 0 "") st1 ops).2.length := by
  obtain ⟨-, -, -, -, -, hv, -, -, -, -, -, hg⟩ := createDID_ok st0 t c args st1 d h
  refine ⟨hv, ?_⟩
  obtain ⟨r', h1, h2, -, -, -, -⟩ := runMuts_invariant (args.getD 0 "") ops st1 d hg
  exact ⟨r', h1, by rw [h2, hv]⟩

/-- C1 witness: a concrete creation followed by one successful update. -/
theorem claim1_version_counter_witness :
    (⟨"did:example:1", "long1", "doc1", 0, 0, 1, false, 0, "", "", "unknown",
      ["unknown"]⟩ : DIDDocument).Version = 1 ∧
    ∃ r', getState (runMuts (["did:example:1", "long1", "doc1"].getD 0 "")
        [("did:example:1", Blob.good ⟨"did:example:1", "long1", "doc1", 0, 0, 1,
          false, 0, "", "", "unknown", ["unknown"]⟩)]
        [MutOp.upd "doc2" "" 1 "y"]).1
        (["did:example:1", "long1", "doc1"].getD 0 "") = some (Blob.good r') ∧
      r'.Version = 1 + ((runMuts (["did:example:1", "long1", "doc1"].getD 0 "")
        [("did:example:1", Blob.good ⟨"did:example:1", "long1", "doc1", 0, 0, 1,
          false, 0, "", "", "unknown", ["unknown"]⟩)]
        [MutOp.upd "doc2" "" 1 "y"]).2).length :=
  claim1_version_counter [] 0 "x" ["did:example:1", "long1", "doc1"]
    [("did:example:1", Blob.good ⟨"did:example:1", "long1", "doc1", 0, 0, 1,
      false, 0, "", "", "unknown", ["unknown"]⟩)]
    ⟨"did:example:1", "long1", "doc1", 0, 0, 1, false, 0, "", "", "unknown",
      ["unknown"]⟩
    (by decide) [MutOp.upd "doc2" "" 1 "y"]

/-- C2: on a record whose update key is set, an `UpdateDID` whose proof
does not validate against the message built from the did, the new document
and the next version number fails with the unauthorized error and returns
the store unchanged — no write occurs and the stored record keeps its
prior version and document. -/
theorem claim2_unauthorized_update_no_write (st : Store) (t : Int) (c : String)
    (did newDoc proof : String) (r : DIDDocument)
    (hget : getState st did = some (Blob.good r))
    (hk : r.UpdateKey ≠ "")
    (hsig : validateSignature (mkUpdateMessage did newDoc (r.Version + 1))
        proof r.UpdateKey = false) :
    updateDID st t c [did, newDoc, proof] =
      (st, Response.err "Invalid operation signature for update") := by
  simp only [updateDID, List.length_cons, List.length_nil, List.getD]
  norm_num
  rw [hget]
  simp only [Blob.decode]
  rw [if_pos ⟨hk, hsig⟩]

/-- C2 witness: a record with update key "K" rejects an empty proof. -/
theorem claim2_unauthorized_update_no_write_witness :
    updateDID [("d1", Blob.good ⟨"d1", "l", "doc1", 0, 0, 1, false, 0, "K", "",
      "unknown", ["unknown"]⟩)] 0 "x" ["d1", "nd", ""] =
    ([("d1", Blob.good ⟨"d1", "l", "doc1", 0, 0, 1, false, 0, "K", "",
      "unknown", ["unknown"]⟩)],
     Response.err "Invalid operation signature for update") :=
  claim2_unauthorized_update_no_write _ 0 "x" "d1" "nd" ""
    ⟨"d1", "l", "doc1", 0, 0, 1, false, 0, "K", "", "unknown", ["unknown"]⟩
    (by decide) (by decide) (by decide)

/-- C3: once a successful `RecoverDID` has set the recovered flag, the flag
is true in the returned record and stays true in the stored record after
any further sequence of mutations — in particular a later successful
`UpdateDID` does not reset it. -/
theorem claim3_recovered_monotone (st : Store) (t : Int) (c : String)
    (did doc sig : String) (st1 : Store) (d : DIDDocument) (r : DIDDocument)
    (hget : getState st did = some (Blob.good r))
    (h : recoverDID st t c [did, doc, sig] = (st1, Response.ok d))
    (ops : List MutOp) :
    d.Recovered = true ∧
    ∃ r', getState (runMuts did st1 ops).1 did = some (Blob.good r') ∧
      r'.Recovered = true := by
  obtain ⟨hd, -, -, hg⟩ := recoverDID_ok st t c did doc sig st1 d r hget h
  subst hd
  refine ⟨rfl, ?_⟩
  obtain ⟨r', h1, -, h3, -, -, -⟩ := runMuts_invariant did ops st1 _ hg
  exact ⟨r', h1, h3 rfl⟩

/-- C3 witness: recover a concrete record, then run one successful update;
the flag stays raised. -/
theorem claim3_recovered_monotone_witness :
    (⟨"d1", "l", "doc2", 0, 1, 2, true, 1, "", "", "unknown",
      ["unknown"]⟩ : DIDDocument).Recovered = true ∧
    ∃ r', getState (runMuts "d1"
        [("d1", Blob.good ⟨"d1", "l", "doc2", 0, 1, 2, true, 1, "", "",
          "unknown", ["unknown"]⟩)] [MutOp.upd "doc3" "" 2 "y"]).1 "d1" =
        some (Blob.good r') ∧ r'.Recovered = true :=
  claim3_recovered_monotone
    [("d1", Blob.good ⟨"d1", "l", "doc1", 0, 0, 1, false, 0, "", "",
      "unknown", ["unknown"]⟩)] 1 "x" "d1" "doc2" "s"
    [("d1", Blob.good ⟨"d1", "l", "doc2", 0, 1, 2, true, 1, "", "",
      "unknown", ["unknown"]⟩)]
    ⟨"d1", "l", "doc2", 0, 1, 2, true, 1, "", "", "unknown", ["unknown"]⟩
    ⟨"d1", "l", "doc1", 0, 0, 1, false, 0, "", "", "unknown", ["unknown"]⟩
    (by decide) (by decide) [MutOp.upd "doc3" "" 2 "y"]

/-- C5: creation initializes the endorsement list to exactly the creator's
organization label; after any sequence of mutations the stored list still
starts with that label (existing entries and their order are preserved on
the left), contains no duplicates, and contains the organization label of
every successful mutation. -/
theorem claim5_endorsements (st0 : Store) (t : Int) (c : String)
    (args : List String) (st1 : Store) (d : DIDDocument)
    (h : createDID st0 t c args = (st1, Response.ok d)) (ops : List MutOp) :
    d.EndorsedBy = [createdByOf c] ∧
    ∃ r', getState (runMuts (args.getD 0 "") st1 ops).1 (args.getD 0 "") =
        some (Blob.good r') ∧
      (∃ tail, r'.EndorsedBy = [createdByOf c] ++ tail) ∧
      r'.EndorsedBy.Nodup ∧
      createdByOf c ∈ r'.EndorsedBy ∧
      (∀ o ∈ (runMuts (args.getD 0 "") st1 ops).2, o ∈ r'.EndorsedBy) := by
  obtain ⟨-, -, -, -, -, -, -, -, hE, -, -, hg⟩ := createDID_ok st0 t c args st1 d h
  refine ⟨hE, ?_⟩
  obtain ⟨r', h1, -, -, h4, h5, h6⟩ := runMuts_invariant (args.getD 0 "") ops st1 d hg
  obtain ⟨tail, htail⟩ := h4
  rw [hE] at htail
  refine ⟨r', h1, ⟨tail, htail⟩, h5 (by rw [hE]; exact List.nodup_singleton _), ?_, h6⟩
  rw [htail]
  exact List.mem_append_left _ (List.mem_singleton_self _)

/-- C5 witness: create, then one successful update by an unmatched caller;
the endorsement list stays the duplicate-free singleton. -/
theorem claim5_endorsements_witness :
    (⟨"d5", "l5", "doc1", 0, 0, 1, false, 0, "", "", "unknown",
      ["unknown"]⟩ : DIDDocument).EndorsedBy = [createdByOf "x"] ∧
    ∃ r', getState (runMuts (["d5", "l5", "doc1"].getD 0 "")
        [("d5", Blob.good ⟨"d5", "l5", "doc1", 0, 0, 1, false, 0, "", "",
          "unknown", ["unknown"]⟩)] [MutOp.upd "doc2" "" 1 "y"]).1
        (["d5", "l5", "doc1"].getD 0 "") = some (Blob.good r') ∧
      (∃ tail, r'.EndorsedBy = [createdByOf "x"] ++ tail) ∧
      r'.EndorsedBy.Nodup ∧
      createdByOf "x" ∈ r'.EndorsedBy ∧
      (∀ o ∈ (runMuts (["d5", "l5", "doc1"].getD 0 "")
        [("d5", Blob.good ⟨"d5", "l5", "doc1", 0, 0, 1, false, 0, "", "",
          "unknown", ["unknown"]⟩)] [MutOp.upd "doc2" "" 1 "y"]).2,
        o ∈ r'.EndorsedBy) :=
  claim5_endorsements [] 0 "x" ["d5", "l5", "doc1"]
    [("d5", Blob.good ⟨"d5", "l5", "doc1", 0, 0, 1, false, 0, "", "",
      "unknown", ["unknown"]⟩)]
    ⟨"d5", "l5", "doc1", 0, 0, 1, false, 0, "", "", "unknown", ["unknown"]⟩
    (by decide) [MutOp.upd "doc2" "" 1 "y"]

/-- C9: a successful `UpdateDID` changes only the document, update time,
version and (possibly) endorsement list; the did, long-form did, creation
time, update key, recovery key, creator and recovery fields of the stored
record are unchanged. -/
theorem claim9_update_frame (st : Store) (t : Int) (c : String)
    (did doc sig : String) (st' : Store) (d : DIDDocument) (r : DIDDocument)
    (hget : getState st did = some (Blob.good r))
    (h : updateDID st t c [did, doc, sig] = (st', Response.ok d)) :
    d.DID = r.DID ∧ d.LongFormDID = r.LongFormDID ∧ d.CreatedAt = r.CreatedAt ∧
    d.UpdateKey = r.UpdateKey ∧ d.RecoveryKey = r.RecoveryKey ∧
    d.CreatedBy = r.CreatedBy ∧ d.Recovered = r.Recovered ∧
    d.RecoveredAt = r.RecoveredAt ∧
    d.Document = doc ∧ d.UpdatedAt = t ∧ d.Version = r.Version + 1 ∧
    getState st' did = some (Blob.good d) := by
  obtain ⟨hd, -, -, hg⟩ := updateDID_ok st t c did doc sig st' d r hget h
  subst hd
  exact ⟨rfl, rfl, rfl, rfl, rfl, rfl, rfl, rfl, rfl, rfl, rfl, hg⟩

/-- C9 witness: a concrete successful update leaves every frame field of
the record as it was. -/
theorem claim9_update_frame_witness :
    (⟨"d9", "l9", "doc2", 0, 1, 2, false, 0, "", "K2", "unknown",
      ["unknown"]⟩ : DIDDocument).DID = "d9" ∧
    (⟨"d9", "l9", "doc2", 0, 1, 2, false, 0, "", "K2", "unknown",
      ["unknown"]⟩ : DIDDocument).LongFormDID = "l9" ∧
    (⟨"d9", "l9", "doc2", 0, 1, 2, false, 0, "", "K2", "unknown",
      ["unknown"]⟩ : DIDDocument).CreatedAt = 0 ∧
    (⟨"d9", "l9", "doc2", 0, 1, 2, false, 0, "", "K2", "unknown",
      ["unknown"]⟩ : DIDDocument).UpdateKey = "" ∧
    (⟨"d9", "l9", "doc2", 0, 1, 2, false, 0, "", "K2", "unknown",
      ["unknown"]⟩ : DIDDocument).RecoveryKey = "K2" ∧
    (⟨"d9", "l9", "doc2", 0, 1, 2, false, 0, "", "K2", "unknown",
      ["unknown"]⟩ : DIDDocument).CreatedBy = "unknown" ∧
    (⟨"d9", "l9", "doc2", 0, 1, 2, false, 0, "", "K2", "unknown",
      ["unknown"]⟩ : DIDDocument).Recovered = false ∧
    (⟨"d9", "l9", "doc2", 0, 1, 2, false, 0, "", "K2", "unknown",
      ["unknown"]⟩ : DIDDocument).RecoveredAt = 0 ∧
    (⟨"d9", "l9", "doc2", 0, 1, 2, false, 0, "", "K2", "unknown",
      ["unknown"]⟩ : DIDDocument).Document = "doc2" ∧
    (⟨"d9", "l9", "doc2", 0, 1, 2, false, 0, "", "K2", "unknown",
      ["unknown"]⟩ : DIDDocument).UpdatedAt = 1 ∧
    (⟨"d9", "l9", "doc2", 0, 1, 2, false, 0, "", "K2", "unknown",
      ["unknown"]⟩ : DIDDocument).Version =
      (⟨"d9", "l9", "doc1", 0, 0, 1, false, 0, "", "K2", "unknown",
        ["unknown"]⟩ : DIDDocument).Version + 1 ∧
    getState [("d9", Blob.good ⟨"d9", "l9", "doc2", 0, 1, 2, false, 0, "",
      "K2", "unknown", ["unknown"]⟩)] "d9" =
      some (Blob.good ⟨"d9", "l9", "doc2", 0, 1, 2, false, 0, "", "K2",
        "unknown", ["unknown"]⟩) := by
  have h := claim9_update_frame
    [("d9", Blob.good ⟨"d9", "l9", "doc1", 0, 0, 1, false, 0, "", "K2",
      "unknown", ["unknown"]⟩)] 1 "x" "d9" "doc2" "s"
    [("d9", Blob.good ⟨"d9", "l9", "doc2", 0, 1, 2, false, 0, "", "K2",
      "unknown", ["unknown"]⟩)]
    ⟨"d9", "l9", "doc2", 0, 1, 2, false, 0, "", "K2", "unknown", ["unknown"]⟩
    ⟨"d9", "l9", "doc1", 0, 0, 1, false, 0, "", "K2", "unknown", ["unknown"]⟩
    (by decide) (by decide)
  exact ⟨h.1, h.2.1, h.2.2.1, h.2.2.2.1, h.2.2.2.2.1, h.2.2.2.2.2.1,
    h.2.2.2.2.2.2.1, h.2.2.2.2.2.2.2.1, h.2.2.2.2.2.2.2.2.1,
    h.2.2.2.2.2.2.2.2.2.1, h.2.2.2.2.2.2.2.2.2.2.1, h.2.2.2.2.2.2.2.2.2.2.2⟩

/-- C4: a well-formed `CreateDID` call whose did already holds a record
fails with the already-exists error and returns the store unchanged — the
first record is untouched and no write occurs. -/
theorem claim4_duplicate_create (st : Store) (t : Int) (c : String)
    (args : List String) (b : Blob) (did : String)
    (hdid : args.getD 0 "" = did)
    (hlen1 : 3 ≤ args.length) (hlen2 : args.length ≤ 5)
    (hex2 : getState st did = some b) :
    createDID st t c args = (st, Response.err (s!"DID {did} already exists")) := by
  simp only [createDID]
  rw [if_neg (by simp; omega), hdid, hex2]

/-- C4 witness: creating "d1" twice fails the second time, ledger intact. -/
theorem claim4_duplicate_create_witness :
    createDID [("d1", Blob.good ⟨"d1", "l", "doc1", 0, 0, 1, false, 0, "", "",
      "unknown", ["unknown"]⟩)] 0 "x" ["d1", "l", "doc1"] =
    ([("d1", Blob.good ⟨"d1", "l", "doc1", 0, 0, 1, false, 0, "", "",
      "unknown", ["unknown"]⟩)], Response.err "DID d1 already exists") :=
  claim4_duplicate_create _ 0 "x" ["d1", "l", "doc1"]
    (Blob.good ⟨"d1", "l", "doc1", 0, 0, 1, false, 0, "", "", "unknown",
      ["unknown"]⟩) "d1" (by decide) (by decide) (by decide) (by decide)

set_option maxRecDepth 1000000 in
/-- C6 counterexample: the claimed equivalence fails at message "m", empty
key, and a proof equal to the first 16 hex characters of sha256("m"): the
proof contains the digest prefix, yet `validateSignature` returns false
because the key is empty (the code rejects on an empty signature or an
empty key, not on empty message and key). -/
theorem claim6_counterexample :
    ¬ (∀ message proof key : String,
        validateSignature message proof key = true ↔
        strContains proof
          (strTake (hexEncode (sha256Bytes (strBytes (message ++ key)))) 16)
          = true) := by
  intro hall
  have h := (hall "m" "62c66a7a5dd70c31" "").2 (by decide)
  exact absurd h (by decide)

/-- C6 (amended): `validateSignature message proof key` returns true iff
`proof` and `key` are both non-empty and `proof` contains, as a substring
anywhere, the first 16 hex characters of the hex encoding of the SHA-256
digest of `message ++ key`; an empty proof or an empty key automatically
rejects, and the function is total (never panics). -/
theorem claim6_validate_contract (message proof key : String) :
    validateSignature message proof key = true ↔
    (proof ≠ "" ∧ key ≠ "" ∧
     strContains proof
       (strTake (hexEncode (sha256Bytes (strBytes (message ++ key)))) 16)
       = true) := by
  unfold validateSignature
  by_cases hp : proof = ""
  · simp [hp]
  · by_cases hk : key = ""
    · simp [hp, hk]
    · simp [hp, hk]

set_option maxRecDepth 1000000 in
/-- C6 witness: a proof equal to the digest prefix of ("m", key "K") is
accepted. -/
theorem claim6_validate_contract_witness :
    validateSignature "m" "0f51b35ba47540f2" "K" = true :=
  (claim6_validate_contract "m" "0f51b35ba47540f2" "K").mpr
    ⟨by decide, by decide, by decide⟩

/-- C7: a `CreateDID` call with an empty did fails with the empty-key
error of the modelled ledger write and performs no write (the store comes
back unchanged). -/
theorem claim7_empty_did (st : Store) (t : Int) (c : String) (lf doc : String)
    (h0 : getState st "" = none) :
    createDID st t c ["", lf, doc] =
      (st, Response.err "key must not be an empty string") := by
  simp only [createDID, List.length_cons, List.length_nil, List.getD]
  norm_num
  rw [h0]
  simp [putState]

/-- C7 witness: creating the empty did on an empty ledger fails, no write. -/
theorem claim7_empty_did_witness :
    createDID [] 0 "x" ["", "l", "doc"] =
      ([], Response.err "key must not be an empty string") :=
  claim7_empty_did [] 0 "x" "l" "doc" (by decide)

/-- C8: if any stored value fails to decode, `ListDIDs` aborts with an
error carrying no records (no partial results); if every stored value
decodes, it returns all records and never an error; the empty store yields
the empty sequence. -/
theorem claim8_list_all_or_nothing :
    (∀ st : Store, (∃ p ∈ st, Blob.decode p.2 = none) →
      ∃ m, listDIDs st = ListResponse.err m) ∧
    (∀ st : Store, (∀ p ∈ st, Blob.decode p.2 ≠ none) →
      listDIDs st = ListResponse.ok (st.filterMap (fun p => Blob.decode p.2))) ∧
    listDIDs ([] : Store) = ListResponse.ok [] := by
  refine ⟨?_, ?_, rfl⟩
  · intro st
    induction st with
    | nil => rintro ⟨p, hp, -⟩; cases hp
    | cons q rest ih =>
      rintro ⟨p, hp, hdec⟩
      obtain ⟨k, b⟩ := q
      rcases List.mem_cons.1 hp with rfl | hp2
      · exact ⟨"unmarshal failure", by simp only [listDIDs]; rw [hdec]⟩
      · cases hb : Blob.decode b with
        | none => exact ⟨"unmarshal failure", by simp only [listDIDs]; rw [hb]⟩
        | some dd =>
          obtain ⟨m, hm⟩ := ih ⟨p, hp2, hdec⟩
          exact ⟨m, by simp only [listDIDs]; rw [hb, hm]⟩
  · intro st
    induction st with
    | nil => intro _; rfl
    | cons q rest ih =>
      intro hall
      obtain ⟨k, b⟩ := q
      have hb := hall (k, b) (List.mem_cons_self _ _)
      cases hbd : Blob.decode b with
      | none => exact absurd hbd hb
      | some dd =>
        have hrest := ih (fun p hp => hall p (List.mem_cons_of_mem _ hp))
        simp only [listDIDs]
        rw [hbd, hrest]
        simp [List.filterMap_cons, hbd]

/-- C8 witness: one corrupt entry aborts the listing; one good entry is
listed in full; instantiated through the theorem. -/
theorem claim8_list_all_or_nothing_witness :
    (∃ m, listDIDs [("k", Blob.corrupt 0)] = ListResponse.err m) ∧
    listDIDs [("k", Blob.good ⟨"d", "l", "doc", 0, 0, 1, false, 0, "", "",
      "unknown", ["unknown"]⟩)] =
    ListResponse.ok [⟨"d", "l", "doc", 0, 0, 1, false, 0, "", "", "unknown",
      ["unknown"]⟩] := by
  constructor
  · exact claim8_list_all_or_nothing.1 [("k", Blob.corrupt 0)]
      ⟨("k", Blob.corrupt 0), List.mem_singleton_self _, rfl⟩
  · exact (claim8_list_all_or_nothing.2.1
      [("k", Blob.good ⟨"d", "l", "doc", 0, 0, 1, false, 0, "", "", "unknown",
        ["unknown"]⟩)] (by decide)).trans (by decide)

/-- C10: organization attribution is deterministic first-match — a caller
identity containing CompanyA's marker is labelled "CompanyA" even when it
also contains CompanyB's marker, otherwise one containing CompanyB's
marker is labelled "CompanyB", otherwise the sentinel "unknown"; and the
attribution blocks of `createDID`, `updateDID` and `recoverDID` agree on
every identity. -/
theorem claim10_attribution_first_match (c : String) :
    updatedByOf c = createdByOf c ∧ recoveredByOf c = createdByOf c ∧
    (strContains c markerA = true → createdByOf c = "CompanyA") ∧
    (strContains c markerA = false → strContains c markerB = true →
      createdByOf c = "CompanyB") ∧
    (strContains c markerA = false → strContains c markerB = false →
      createdByOf c = "unknown") := by
  refine ⟨rfl, rfl, ?_, ?_, ?_⟩
  · intro h; simp [createdByOf, h]
  · intro h1 h2; simp [createdByOf, h1, h2]
  · intro h1 h2; simp [createdByOf, h1, h2]

/-- C10 witness: an identity containing both markers is attributed to
CompanyA by all three operations. -/
theorem claim10_attribution_first_match_witness :
    createdByOf (markerA ++ markerB) = "CompanyA" ∧
    updatedByOf (markerA ++ markerB) = createdByOf (markerA ++ markerB) ∧
    recoveredByOf (markerA ++ markerB) = createdByOf (markerA ++ markerB) :=
  ⟨(claim10_attribution_first_match (markerA ++ markerB)).2.2.1 (by decide),
   (claim10_attribution_first_match (markerA ++ markerB)).1,
   (claim10_attribution_first_match (markerA ++ markerB)).2.1⟩

end DIDChain
